import Mathlib

/-
Verification of the AI-Website-Summarizer pipeline (src/main.py) against its
natural-language specification.

Shallow embedding conventions:
- Python exceptions are modelled by the `PyErr` type and fallible code returns
  `Except PyErr _`.
- Calls into external collaborators (the `validators` library, `requests` +
  BeautifulSoup, the OpenAI and Ollama backends, the filesystem, GUI and SMTP)
  are modelled by oracle values collected in `PyEnv`: each oracle records the
  outcome the external call would have produced, and the embedded functions
  reproduce exactly what the Python code does with that outcome.
- Logging via `configured_logger` is modelled by returning a `List LogEntry`.
- The filesystem is modelled as `FS := String → Option String` (path ↦ contents).
-/

/-- Python exception values that flow through main.py. `msg` is the Python
`str(e)` of the exception. -/
inductive PyErr where
  | valueError (msg : String)
  | runtimeError (msg : String)
  | nameError (msg : String)
deriving DecidableEq, Repr

/-- Python `str(e)` for a modelled exception. -/
def PyErr.str : PyErr → String
  | .valueError m => m
  | .runtimeError m => m
  | .nameError m => m

/-- Log levels of `configured_logger` calls appearing in main.py. -/
inductive LogLevel where
  | info
  | warning
  | error
deriving DecidableEq, Repr

/-- One `configured_logger` call: level and message. -/
structure LogEntry where
  level : LogLevel
  msg : String
deriving DecidableEq, Repr

/-- Outcome of the external call `validators.url(url)` (main.py line 162):
either it returns a value whose truthiness is `b` (the library returns `True`
or a falsy `ValidationError` object), or it raises an exception whose
`str` is `msg`. -/
inductive ValidatorResult where
  | ok (b : Bool)
  | exc (msg : String)
deriving DecidableEq, Repr

/-- Outcome of `requests.get(url)` followed by BeautifulSoup parsing and the
body clean-up (main.py lines 36-41): either a parsed page (`title` is the
title element's string when a title element exists, `text` is the cleaned
body text), or some exception whose `str` is `msg` (network failure, parse
failure, missing body, ...). -/
inductive FetchResult where
  | page (title : Option String) (text : String)
  | exc (msg : String)
deriving DecidableEq, Repr

/-- The Website object (main.py lines 25-45) after successful construction:
url, title and cleaned text. This is the spec's PageContent. -/
structure Website where
  url : String
  title : String
  text : String
deriving DecidableEq, Repr

/-- `validate_url` (main.py lines 159-164). On an exception from
`validators.url`, the bare `except:` does not bind the exception to a name,
yet the handler's f-string evaluates `str(e)` with `e` unbound; that lookup
raises `NameError("name 'e' is not defined")` before the `RuntimeError` the
handler constructs can be raised. -/
def validate_url (vres : ValidatorResult) (url : String) : Except PyErr Bool :=
  match vres with
  | .ok b => .ok b
  | .exc _ => .error (.nameError "name \x27e\x27 is not defined")

/-- `Website.__init__` (main.py lines 26-45). Returns the constructed object
or the raised exception, together with a flag recording whether the network
request `requests.get(url)` was executed. URL validation happens first; on a
falsy validator result a `ValueError("Invalid URL format")` is raised before
any network activity. Any exception in the fetch/parse block is wrapped in a
`RuntimeError` with the bs4 envelope. A missing title element yields the
sentinel title. -/
def Website.init (vres : ValidatorResult) (fres : FetchResult) (url : String) :
    Except PyErr Website × Bool :=
  match validate_url vres url with
  | .error e => (.error e, false)
  | .ok b =>
    if !b then
      (.error (.valueError "Invalid URL format"), false)
    else
      match fres with
      | .exc m =>
          (.error (.runtimeError ("Error occurred while accessing/parsing url with bs4 --> " ++ m)),
           true)
      | .page t x => (.ok ⟨url, t.getD "No title found", x⟩, true)

/-- Python's `c in s` for a single-character needle: membership of the
character among the string's characters (strings are modelled for searching
purposes through their character list, which the Lean kernel can evaluate). -/
def pyContainsChar (s : String) (c : Char) : Bool :=
  s.data.contains c

/-- Python's `s.startswith(t)`: the first `len(t)` characters of `s` are
exactly the characters of `t`. -/
def pyStartsWith (s t : String) : Bool :=
  s.data.take t.data.length == t.data

/-- `validate_api_key` (main.py lines 114-129). `not api_key` is true for the
absent key (`None`) and for the empty string; then the space/tab substring
check; otherwise returns `True`. -/
def validate_api_key (api_key : Option String) : Except PyErr Bool :=
  match api_key with
  | none =>
      .error (.valueError "No API key was found - please head over to the troubleshooting notebook.")
  | some k =>
    if k = "" then
      .error (.valueError "No API key was found - please head over to the troubleshooting notebook.")
    else if pyContainsChar k ' ' || pyContainsChar k '\t' then
      .error (.valueError "API key contains spaces or tab characters. Please check your key format.")
    else
      .ok true

/-- `initialize_openai` (main.py lines 132-156). `env_api_key` is the value of
`os.getenv("OPENAI_API_KEY")`. Returns the logger calls made and either the
constructed client (modelled by the key it was built with) or the raised
exception: a `ValueError` from validation is re-wrapped as a `ValueError` with
the validation envelope; any other exception would be wrapped as a
`RuntimeError`. -/
def initialize_openai (env_api_key : Option String) : List LogEntry × Except PyErr String :=
  match validate_api_key env_api_key with
  | .error (PyErr.valueError m) =>
      ([], .error (.valueError ("Error occurred while validating API key --> " ++ m)))
  | .error e =>
      ([], .error (.runtimeError ("Unexpected error occurred during OpenAI initialization --> " ++ e.str)))
  | .ok _ =>
    match env_api_key with
    | none => ([], .ok "")  -- unreachable: validate_api_key rejects an absent key
    | some k =>
      if !(pyStartsWith k "sk-proj") then
        ([⟨LogLevel.warning,
           "An API key was found, but it doesn\x27t start with \x27sk-proj-\x27; please check you\x27re using the correct key."⟩],
         .ok k)
      else
        ([⟨LogLevel.info, "API key found and does not violate any standards!"⟩], .ok k)

/-- `system_prompt` (main.py lines 167-169); the backslash-newlines in the
Python source are line continuations inside one string literal. -/
def system_prompt : String :=
  "You are an assistant that analyzes the contents of a website and provides a short summary, ignoring text that might be navigation related. Respond in markdown."

/-- `user_prompt_for` (main.py lines 172-179). The Python literal contains the
invalid escape `\p`, which Python keeps as a literal backslash followed by p. -/
def user_prompt_for (website : Website) : String :=
  "You are looking at a website titled " ++ website.title
  ++ "\nThe contents of this website is as follows; \\please provide a short summary of this website in markdown. If it includes news or announcements, then summarize these too.\n\n"
  ++ website.text

/-- One role-tagged chat message. -/
structure Message where
  role : String
  content : String
deriving DecidableEq, Repr

/-- `messages_for` (main.py lines 182-186). -/
def messages_for (website : Website) : List Message :=
  [⟨"system", system_prompt⟩, ⟨"user", user_prompt_for website⟩]

/-- A message object inside an Ollama chat response; `content` is `none` when
the `"content"` key is absent. -/
structure OllamaMessage where
  content : Option String
deriving DecidableEq, Repr

/-- An Ollama chat response; `message` is `none` when the `"message"` key is
absent (the zero-messages response). -/
structure OllamaResponse where
  message : Option OllamaMessage
deriving DecidableEq, Repr

/-- One choice of an OpenAI chat-completion response; `message.content` is
modelled as the extracted completion text. -/
structure OpenAIChoice where
  message : Message
deriving DecidableEq, Repr

/-- An OpenAI chat-completion response: its list of choices. -/
structure OpenAIResponse where
  choices : List OpenAIChoice
deriving DecidableEq, Repr

/-- Whether the global name `openai_instance`, read by
`OpenAISummarizationModel.generate_summary` (main.py line 72), is bound
anywhere in the program. It is not: the constructor stores the client in
`self.openai` (line 68) and no assignment to `openai_instance` exists. -/
def openai_instance_defined : Bool := false

/-- `OllamaSummarizationModel.generate_summary` (main.py lines 57-62). `call`
is the oracle for the external `ollama.chat(model=model,
messages=messages_for(website))` call: a raised transport exception or a
response object. The subscript lookups `response["message"]["content"]` raise
`KeyError` (whose Python `str` is the quoted key) when a key is absent; every
exception is caught and wrapped in the (copy-pasted) "API call to OpenAI
model failed" RuntimeError. -/
def OllamaSummarizationModel.generate_summary (call : Except String OllamaResponse)
    (model : String) (website : Website) : Except PyErr String :=
  match call with
  | .error m => .error (.runtimeError ("API call to OpenAI model failed --> " ++ m))
  | .ok resp =>
    match resp.message with
    | none => .error (.runtimeError "API call to OpenAI model failed --> \x27message\x27")
    | some msg =>
      match msg.content with
      | none => .error (.runtimeError "API call to OpenAI model failed --> \x27content\x27")
      | some c => .ok c

/-- `OpenAISummarizationModel.generate_summary` (main.py lines 70-82). The try
block first evaluates the global name `openai_instance`; since that name is
bound nowhere (`openai_instance_defined = false` for this program), the lookup
raises `NameError("name 'openai_instance' is not defined")` before any request
is made, and the method's own `except Exception as e` wraps it in a
`RuntimeError`. The remaining branches embed what the body does when the name
resolves: `call` is the oracle for the `chat.completions.create` request; on
an empty `choices` list the body raises a `RuntimeError` inside the try block,
which the method's own except clause catches and re-wraps. -/
def OpenAISummarizationModel.generate_summary (instance_defined : Bool)
    (call : Except String OpenAIResponse) (model : String) (website : Website) :
    Except PyErr String :=
  if !instance_defined then
    .error (.runtimeError "API call to OpenAI model failed --> name \x27openai_instance\x27 is not defined")
  else
    match call with
    | .error m => .error (.runtimeError ("API call to OpenAI model failed --> " ++ m))
    | .ok resp =>
      match resp.choices with
      | [] =>
          .error (.runtimeError "API call to OpenAI model failed --> API response did not contain a valid \x27choices\x27 field or it is empty.")
      | c :: _ => .ok c.message.content

/-- The two provider variants that `summarization_model_factory` can return. -/
inductive ModelChoice where
  | openaiModel
  | ollamaModel
deriving DecidableEq, Repr

/-- `summarization_model_factory` (main.py lines 85-91). Constructing
`OpenAISummarizationModel()` runs `initialize_openai()`, whose logger calls
and exceptions propagate out of the factory. -/
def summarization_model_factory (env_api_key : Option String) (model_type : String) :
    List LogEntry × Except PyErr ModelChoice :=
  if model_type = "openai" then
    match initialize_openai env_api_key with
    | (lg, .error e) => (lg, .error e)
    | (lg, .ok _) => (lg, .ok ModelChoice.openaiModel)
  else if model_type = "ollama" then
    ([], .ok ModelChoice.ollamaModel)
  else
    ([], .error (.valueError ("Unknown model type " ++ model_type)))

/-- The filesystem: a map from path to file contents. -/
def FS : Type := String → Option String

/-- `WriteToFileStrategy.handle_result` (main.py lines 209-217). `file_path`
is the path stored by the constructor; `fsErr` is the oracle for the
`open`/`write` filesystem operations (`some m` means they raised an OSError
whose `str` is `m`). The code opens the hardcoded path `"week1/summary.md"`
in mode `"w"` (full truncating overwrite), not `self.file_path`; the stored
path appears only in the failure message. -/
def WriteToFileStrategy.handle_result (file_path : String) (fsErr : Option String)
    (fs : FS) (summary : String) : FS × List LogEntry × Except PyErr Unit :=
  match fsErr with
  | some m =>
      (fs, [], .error (.runtimeError ("Failed to write summary to file " ++ file_path ++ " --> " ++ m)))
  | none =>
      (fun p => if p = "week1/summary.md" then some summary else fs p,
       [⟨LogLevel.info, "Summary written to week1/summary.md"⟩],
       .ok ())

/-- The Display strategies of main.py (lines 195-275): the spec's ResultSink
variants. -/
inductive Strategy where
  | richConsole
  | writeToFile (file_path : String)
  | printToConsole
  | guiWindow
  | sendEmail (recipient : String) (sender : String)
deriving DecidableEq, Repr

/-- Oracles for every external collaborator one orchestrator run can touch.
Each field records the outcome the corresponding external call would produce
if executed. -/
structure PyEnv where
  /-- outcome of `validators.url(url)` -/
  urlCheck : ValidatorResult
  /-- outcome of `requests.get` + BeautifulSoup parsing -/
  fetch : FetchResult
  /-- value of `os.getenv("OPENAI_API_KEY")` -/
  env_api_key : Option String
  /-- outcome of `ollama.chat(...)` -/
  ollamaCall : Except String OllamaResponse
  /-- outcome of `openai.chat.completions.create(...)` (reachable only if
  `openai_instance` were defined) -/
  openaiCall : Except String OpenAIResponse
  /-- filesystem oracle for `WriteToFileStrategy` -/
  fsErr : Option String
  /-- exception raised by `Console().print`, if any (`RichConsoleStrategy`
  has no try/except, so it propagates unwrapped) -/
  richErr : Option PyErr
  /-- exception `str` from the tkinter calls, if any -/
  guiErr : Option String
  /-- exception `str` from the SMTP session, if any -/
  emailErr : Option String

/-- Dispatch of `generate_summary` on the provider variant the factory
returned (main.py line 282). -/
def ModelChoice.generate (c : ModelChoice) (env : PyEnv) (model_name : String)
    (website : Website) : Except PyErr String :=
  match c with
  | .openaiModel =>
      OpenAISummarizationModel.generate_summary openai_instance_defined env.openaiCall
        model_name website
  | .ollamaModel =>
      OllamaSummarizationModel.generate_summary env.ollamaCall model_name website

/-- `handle_result` of each Display strategy (main.py lines 195-275), as the
orchestrator invokes it: returns the filesystem after the call, the logger
calls made, and the outcome. `PrintToConsoleStrategy` always succeeds;
`DisplayInGUIWindowStrategy` and `SendToEmailStrategy` wrap their failures in
`RuntimeError` with their respective envelopes; `RichConsoleStrategy` lets
any exception propagate unwrapped. -/
def Strategy.handle (s : Strategy) (env : PyEnv) (fs : FS) (summary : String) :
    FS × List LogEntry × Except PyErr Unit :=
  match s with
  | .richConsole =>
      (fs, [],
       (match env.richErr with
        | none => .ok ()
        | some e => .error e))
  | .writeToFile file_path => WriteToFileStrategy.handle_result file_path env.fsErr fs summary
  | .printToConsole => (fs, [], .ok ())
  | .guiWindow =>
      (fs, [],
       (match env.guiErr with
        | none => .ok ()
        | some m => .error (.runtimeError ("Failed to display summary in GUI window --> " ++ m))))
  | .sendEmail _ _ =>
      (fs, [],
       (match env.emailErr with
        | none => .ok ()
        | some m => .error (.runtimeError ("Failed to send summary email: " ++ m))))

/-- The summary-producing stages of `display_summary` (main.py lines 280-282):
construct the Website, construct the provider via the factory, generate the
summary. Returns the logger calls made and the summary or the first raised
exception. -/
def run_pipeline (env : PyEnv) (url model_type model_name : String) :
    List LogEntry × Except PyErr String :=
  match (Website.init env.urlCheck env.fetch url).1 with
  | .error e => ([], .error e)
  | .ok website =>
    match summarization_model_factory env.env_api_key model_type with
    | (lg, .error e) => (lg, .error e)
    | (lg, .ok choice) =>
      match choice.generate env model_name website with
      | .error e => (lg, .error e)
      | .ok summary => (lg, .ok summary)

/-- Observable state of one orchestrator run: the filesystem, the logger
calls, and the list of summaries passed to a sink's `handle_result`
(one entry per invocation of a sink). -/
structure RunState where
  fs : FS
  logs : List LogEntry
  delivered : List String

/-- The undecorated `display_summary` body (main.py lines 279-286): run the
pipeline, then pass the summary to the given strategy, or to
`PrintToConsoleStrategy` when the strategy argument is `None`. Returns the
run state together with the body's outcome (the raised exception, if any). -/
def display_summary_core (env : PyEnv) (fs : FS) (strategy : Option Strategy)
    (url model_type model_name : String) : RunState × Except PyErr Unit :=
  match run_pipeline env url model_type model_name with
  | (lg, .error e) => (⟨fs, lg, []⟩, .error e)
  | (lg, .ok summary) =>
    let strat := strategy.getD Strategy.printToConsole
    match strat.handle env fs summary with
    | (fs2, slg, out) => (⟨fs2, lg ++ slg, [summary]⟩, out)

/-- The decorated `display_summary` = `log_display_summary` wrapper applied to
the body (main.py lines 94-111 and 278). The wrapper logs the attempt, runs
the body, logs success on normal return, and catches every `Exception`: on a
failure it logs the uniform "Failed to generate & display summary" envelope
with the original cause and returns `None` instead of re-raising. The
function is total — the wrapped call never propagates an exception, which is
why its type has no error channel. -/
def display_summary (env : PyEnv) (fs : FS) (strategy : Option Strategy)
    (url model_type model_name : String) : RunState :=
  match display_summary_core env fs strategy url model_type model_name with
  | (st, .ok _) =>
      ⟨st.fs,
       (⟨LogLevel.info, "Attempting to display summary of website"⟩ :: st.logs)
         ++ [⟨LogLevel.info, "Successfully displayed summary for website"⟩],
       st.delivered⟩
  | (st, .error e) =>
      ⟨st.fs,
       (⟨LogLevel.info, "Attempting to display summary of website"⟩ :: st.logs)
         ++ [⟨LogLevel.error, "Failed to generate & display summary --> " ++ e.str⟩],
       st.delivered⟩

/-- Modelled from the spec (for comparison with the code, §4.3 and §7): the
spec's error taxonomy demands a distinct `EmptyResponseError` raised "when
the backend returns a syntactically valid but content-less response (no
candidate completion)". In the program's concrete error vocabulary the only
diagnostic that identifies an empty response is the `choices`-field message of
main.py lines 78-80; an exception counts as an EmptyResponseError exactly
when it carries that diagnostic, bare or inside the provider-call wrapper. -/
def isEmptyResponseError (e : PyErr) : Bool :=
  match e with
  | .runtimeError m =>
      m = "API response did not contain a valid \x27choices\x27 field or it is empty."
        || m = "API call to OpenAI model failed --> API response did not contain a valid \x27choices\x27 field or it is empty."
  | _ => false

/-- Claim C9: for every model identifier and every website (and every outcome
of the backend call oracle), the remote (OpenAI) provider's
`generate_summary` raises a `RuntimeError` and never returns a summary: the
body reads the global name `openai_instance`, which is defined nowhere in the
program (`openai_instance_defined`), and the resulting `NameError` is caught
and wrapped by the method's own except clause. -/
theorem C9_openai_generate_always_fails :
    ∀ (call : Except String OpenAIResponse) (model_name : String) (w : Website),
      OpenAISummarizationModel.generate_summary openai_instance_defined call model_name w
        = .error (.runtimeError
            "API call to OpenAI model failed --> name \x27openai_instance\x27 is not defined") :=
  fun _ _ _ => rfl

/-- Claim C10: whenever the underlying `validators.url` call raises an
exception, `validate_url`'s error branch raises a `NameError` (the name `e`
is not bound in that handler, the bare except discards the caught exception),
never the `RuntimeError` it constructs. -/
theorem C10_validate_url_raises_name_error :
    ∀ (m url : String),
      validate_url (ValidatorResult.exc m) url
          = .error (.nameError "name \x27e\x27 is not defined")
        ∧ ∀ s, validate_url (ValidatorResult.exc m) url ≠ .error (.runtimeError s) := by
  intro m url
  refine ⟨rfl, fun s h => ?_⟩
  simp [validate_url] at h

/-- Claim C7: `messages_for` (the PromptBuilder) produces exactly two
messages; the first is a system message whose content is the constant
`system_prompt`; the second is a user message whose content contains the page
title and the full extracted text verbatim (the whole `text` is appended, no
truncation); and the result is determined by the title and text alone, so
equal PageContent inputs yield equal prompts. -/
theorem C7_messages_for_shape_and_determinism :
    ∀ (w w2 : Website),
      (messages_for w).length = 2
      ∧ (messages_for w).head? = some ⟨"system", system_prompt⟩
      ∧ (messages_for w)[1]? = some ⟨"user",
          "You are looking at a website titled " ++ w.title
          ++ "\nThe contents of this website is as follows; \\please provide a short summary of this website in markdown. If it includes news or announcements, then summarize these too.\n\n"
          ++ w.text⟩
      ∧ (w.title = w2.title → w.text = w2.text → messages_for w = messages_for w2) := by
  intro w w2
  refine ⟨rfl, rfl, rfl, fun ht hx => ?_⟩
  simp [messages_for, user_prompt_for, ht, hx]

/-- Claim C7 witness: the shape facts and determinism instantiated at
concrete websites with equal title and text. -/
theorem C7_messages_for_witness :
    (messages_for ⟨"https://example.com", "Example Domain", "some text"⟩).length = 2
    ∧ messages_for ⟨"https://example.com", "Example Domain", "some text"⟩
        = messages_for ⟨"https://example.org", "Example Domain", "some text"⟩ :=
  ⟨(C7_messages_for_shape_and_determinism
      ⟨"https://example.com", "Example Domain", "some text"⟩
      ⟨"https://example.org", "Example Domain", "some text"⟩).1,
   (C7_messages_for_shape_and_determinism
      ⟨"https://example.com", "Example Domain", "some text"⟩
      ⟨"https://example.org", "Example Domain", "some text"⟩).2.2.2 rfl rfl⟩

/-- Claim C8 (the code at the failing input): a file sink constructed with
the target path "custom/out.md", delivering "first summary" and then "second
summary" with no filesystem error, writes both summaries to the hardcoded
path "week1/summary.md" (the second delivery fully overwriting the first) and
never touches the configured path, which still holds no file afterwards. -/
theorem C8_file_sink_ignores_configured_path :
    (WriteToFileStrategy.handle_result "custom/out.md" none
        ((WriteToFileStrategy.handle_result "custom/out.md" none (fun _ => none)
            "first summary").1)
        "second summary").1 "week1/summary.md" = some "second summary"
    ∧ (WriteToFileStrategy.handle_result "custom/out.md" none
        ((WriteToFileStrategy.handle_result "custom/out.md" none (fun _ => none)
            "first summary").1)
        "second summary").1 "custom/out.md" = none := by
  constructor
  · rfl
  · rfl

/-- Claim C10 witness: instantiated at a concrete validator exception. -/
theorem C10_validate_url_witness :
    validate_url (ValidatorResult.exc "timeout") "https://x"
        = .error (.nameError "name \x27e\x27 is not defined")
    ∧ validate_url (ValidatorResult.exc "timeout") "https://x"
        ≠ .error (.runtimeError "Failed to validate website url --> timeout") :=
  ⟨(C10_validate_url_raises_name_error "timeout" "https://x").1,
   (C10_validate_url_raises_name_error "timeout" "https://x").2
     "Failed to validate website url --> timeout"⟩

/-- Claim C5: credential validation applies its rules in order. An absent or
empty key fails with the missing-credential `ValueError`; otherwise any key
containing a space or tab fails with the malformed-credential `ValueError`
regardless of its other shape; otherwise the key is accepted
(`initialize_openai` returns a client built with it), every log entry it
emits is non-error, and when the key lacks the expected "sk-proj" prefix the
only log entry is the warning. -/
theorem C5_credential_rules_in_order :
    validate_api_key none
        = .error (.valueError "No API key was found - please head over to the troubleshooting notebook.")
    ∧ validate_api_key (some "")
        = .error (.valueError "No API key was found - please head over to the troubleshooting notebook.")
    ∧ (∀ k : String, (pyContainsChar k ' ' = true ∨ pyContainsChar k '\t' = true) →
        validate_api_key (some k)
          = .error (.valueError "API key contains spaces or tab characters. Please check your key format."))
    ∧ (∀ k : String, k ≠ "" → pyContainsChar k ' ' = false → pyContainsChar k '\t' = false →
        validate_api_key (some k) = .ok true
        ∧ (initialize_openai (some k)).2 = .ok k
        ∧ (∀ entry ∈ (initialize_openai (some k)).1, entry.level ≠ LogLevel.error)
        ∧ (pyStartsWith k "sk-proj" = false →
            (initialize_openai (some k)).1
              = [⟨LogLevel.warning,
                  "An API key was found, but it doesn\x27t start with \x27sk-proj-\x27; please check you\x27re using the correct key."⟩])) := by
  refine ⟨rfl, rfl, fun k hk => ?_, fun k hne hsp htab => ?_⟩
  · have hne : k ≠ "" := by
      intro h
      subst h
      rcases hk with h | h <;> exact absurd h (by decide)
    rcases hk with h | h <;> simp [validate_api_key, hne, h]
  · have hv : validate_api_key (some k) = .ok true := by
      simp [validate_api_key, hne, hsp, htab]
    refine ⟨hv, ?_, ?_, ?_⟩
    · simp [initialize_openai, hv]
      cases h : pyStartsWith k "sk-proj" <;> simp [h]
    · intro entry hmem
      simp only [initialize_openai, hv] at hmem
      cases h : pyStartsWith k "sk-proj" <;> simp [h] at hmem <;> simp [hmem]
    · intro hpre
      simp [initialize_openai, hv, hpre]

/-- Claim C5 witness: the malformed rule at the spec's scenario key
"sk proj 123" (spaces, otherwise plausible shape) and the accept-with-warning
rule at the key "abc". -/
theorem C5_credential_rules_witness :
    validate_api_key (some "sk proj 123")
        = .error (.valueError "API key contains spaces or tab characters. Please check your key format.")
    ∧ validate_api_key (some "abc") = .ok true
    ∧ (initialize_openai (some "abc")).2 = .ok "abc"
    ∧ (initialize_openai (some "abc")).1
        = [⟨LogLevel.warning,
            "An API key was found, but it doesn\x27t start with \x27sk-proj-\x27; please check you\x27re using the correct key."⟩] :=
  ⟨C5_credential_rules_in_order.2.2.1 "sk proj 123" (Or.inl (by decide)),
   (C5_credential_rules_in_order.2.2.2 "abc" (by decide) (by decide) (by decide)).1,
   (C5_credential_rules_in_order.2.2.2 "abc" (by decide) (by decide) (by decide)).2.1,
   (C5_credential_rules_in_order.2.2.2 "abc" (by decide) (by decide) (by decide)).2.2.2
     (by decide)⟩

/-- Claim C4: for any environment credential that passes validation, the
factory returns the remote (OpenAI) variant for `"openai"` and the local
(Ollama) variant for `"ollama"` — two distinct `ModelChoice` variants, each
implementing `generate_summary` — and for every other kind string it fails
with the `ValueError("Unknown model type ...")` (the spec's
UnknownProviderKind). -/
theorem C4_factory_dispatch :
    ∀ (k : String), validate_api_key (some k) = .ok true →
      (summarization_model_factory (some k) "openai").2 = .ok ModelChoice.openaiModel
      ∧ (∀ key : Option String,
          (summarization_model_factory key "ollama").2 = .ok ModelChoice.ollamaModel)
      ∧ ModelChoice.openaiModel ≠ ModelChoice.ollamaModel
      ∧ (∀ (key : Option String) (s : String), s ≠ "openai" → s ≠ "ollama" →
          (summarization_model_factory key s).2
            = .error (.valueError ("Unknown model type " ++ s))) := by
  intro k hv
  refine ⟨?_, fun key => rfl, by simp, fun key s hs1 hs2 => ?_⟩
  · have : (initialize_openai (some k)).2 = .ok k := by
      simp [initialize_openai, hv]
      cases h : pyStartsWith k "sk-proj" <;> simp [h]
    simp only [summarization_model_factory, if_pos rfl]
    cases hinit : initialize_openai (some k) with
    | mk lg r =>
      rw [hinit] at this
      simp at this
      simp [this]
  · simp only [summarization_model_factory, if_neg hs1, if_neg hs2]

/-- Claim C4 witness: instantiated at the valid key "sk-proj-abc" and the
unknown kind "bogus". -/
theorem C4_factory_dispatch_witness :
    (summarization_model_factory (some "sk-proj-abc") "openai").2 = .ok ModelChoice.openaiModel
    ∧ (summarization_model_factory (some "sk-proj-abc") "ollama").2 = .ok ModelChoice.ollamaModel
    ∧ ModelChoice.openaiModel ≠ ModelChoice.ollamaModel
    ∧ (summarization_model_factory (some "sk-proj-abc") "bogus").2
        = .error (.valueError ("Unknown model type " ++ "bogus")) :=
  ⟨(C4_factory_dispatch "sk-proj-abc" rfl).1,
   (C4_factory_dispatch "sk-proj-abc" rfl).2.1 (some "sk-proj-abc"),
   (C4_factory_dispatch "sk-proj-abc" rfl).2.2.1,
   (C4_factory_dispatch "sk-proj-abc" rfl).2.2.2 (some "sk-proj-abc") "bogus"
     (by decide) (by decide)⟩

/-- Claim C6: for every URL on which the syntactic validity check comes back
falsy, `Website.__init__` (the PageLoader) fails with the
`ValueError("Invalid URL format")` (the spec's InvalidURL) and the network
fetch is not executed — whatever the fetch oracle would have produced; and
conversely, the bs4 fetch/parse `RuntimeError` (the spec's FetchError) arises
only when the validator returned truthy and the fetch/parse step itself
raised. -/
theorem C6_invalid_url_no_fetch :
    (∀ (fres : FetchResult) (url : String),
        Website.init (ValidatorResult.ok false) fres url
          = (.error (.valueError "Invalid URL format"), false))
    ∧ (∀ (vres : ValidatorResult) (fres : FetchResult) (url m : String),
        (Website.init vres fres url).1 = .error (.runtimeError m) →
          vres = ValidatorResult.ok true
          ∧ ∃ m2, fres = FetchResult.exc m2
              ∧ m = "Error occurred while accessing/parsing url with bs4 --> " ++ m2) := by
  constructor
  · intro fres url
    rfl
  · intro vres fres url m h
    cases vres with
    | exc me => simp [Website.init, validate_url] at h
    | ok b =>
      cases b with
      | false => simp [Website.init, validate_url] at h
      | true =>
        cases fres with
        | page t x => simp [Website.init, validate_url] at h
        | exc m2 =>
          simp [Website.init, validate_url] at h
          exact ⟨rfl, m2, rfl, h.symm⟩

/-- Claim C6 witness: at a falsy validator outcome the fetch oracle is
irrelevant and the constructor fails with InvalidURL and no network call; at
a truthy validator outcome with a failing fetch, the FetchError hypothesis of
the converse direction is discharged concretely. -/
theorem C6_invalid_url_no_fetch_witness :
    Website.init (ValidatorResult.ok false) (FetchResult.exc "connection refused") "notaurl"
        = (.error (.valueError "Invalid URL format"), false)
    ∧ (ValidatorResult.ok true = ValidatorResult.ok true
        ∧ ∃ m2, FetchResult.exc "connection refused" = FetchResult.exc m2
            ∧ "Error occurred while accessing/parsing url with bs4 --> connection refused"
                = "Error occurred while accessing/parsing url with bs4 --> " ++ m2) :=
  ⟨C6_invalid_url_no_fetch.1 (FetchResult.exc "connection refused") "notaurl",
   C6_invalid_url_no_fetch.2 (ValidatorResult.ok true) (FetchResult.exc "connection refused")
     "https://example.com"
     "Error occurred while accessing/parsing url with bs4 --> connection refused" rfl⟩

/-- Claim C3 counterexample: the claim that a zero-completion backend
response makes `summarize` fail with an EmptyResponseError is false on both
variants at concrete inputs. The local (Ollama) variant, given a response
with no message, fails with the generic provider-call wrapper around the
`KeyError` — the code has no empty-response check at all on this path. The
remote (OpenAI) variant, given a response with an empty choices list, fails
with the generic wrapper around the undefined-name `NameError` — the
empty-choices diagnostic of main.py lines 78-80 is never reached. Neither
error is an EmptyResponseError. -/
theorem C3_counterexample_no_empty_response_error :
    OllamaSummarizationModel.generate_summary (.ok ⟨none⟩) "llama3.2"
        ⟨"https://example.com", "Example Domain", "some text"⟩
      = .error (.runtimeError "API call to OpenAI model failed --> \x27message\x27")
    ∧ isEmptyResponseError
        (.runtimeError "API call to OpenAI model failed --> \x27message\x27") = false
    ∧ OpenAISummarizationModel.generate_summary openai_instance_defined (.ok ⟨[]⟩)
        "gpt-4o-mini" ⟨"https://example.com", "Example Domain", "some text"⟩
      = .error (.runtimeError
          "API call to OpenAI model failed --> name \x27openai_instance\x27 is not defined")
    ∧ isEmptyResponseError
        (.runtimeError
          "API call to OpenAI model failed --> name \x27openai_instance\x27 is not defined")
      = false := by
  refine ⟨rfl, by decide, rfl, by decide⟩

/-- Claim C3 as amended: on a backend response with zero
completions/messages, both variants do fail — neither ever silently returns
a string, let alone an empty one — but with the generic wrapped
`RuntimeError`, not a distinct EmptyResponseError: the remote variant fails
for every input with the wrapper around the undefined-name `NameError`
(never reaching the response), and the local variant fails with the wrapper
around the `KeyError` for the absent message. -/
theorem C3_amended_zero_response_always_fails :
    (∀ (call : Except String OpenAIResponse) (model_name : String) (w : Website) (s : String),
        OpenAISummarizationModel.generate_summary openai_instance_defined call model_name w
          ≠ .ok s)
    ∧ (∀ (model_name : String) (w : Website) (r : OllamaResponse), r.message = none →
        ∀ s, OllamaSummarizationModel.generate_summary (.ok r) model_name w ≠ .ok s) := by
  constructor
  · intro call model_name w s h
    rw [C9_openai_generate_always_fails call model_name w] at h
    exact Except.noConfusion h
  · intro model_name w r hr s h
    cases r with
    | mk msg =>
      cases msg with
      | none => simp [OllamaSummarizationModel.generate_summary] at h
      | some m => exact Option.noConfusion hr

/-- Claim C3 amended witness: both failure facts at concrete inputs. -/
theorem C3_amended_witness :
    OpenAISummarizationModel.generate_summary openai_instance_defined (.ok ⟨[]⟩) "gpt-4o-mini"
        ⟨"https://u", "t", "x"⟩ ≠ .ok "summary"
    ∧ OllamaSummarizationModel.generate_summary (.ok ⟨none⟩) "llama3.2"
        ⟨"https://u", "t", "x"⟩ ≠ .ok "summary" :=
  ⟨C3_amended_zero_response_always_fails.1 (.ok ⟨[]⟩) "gpt-4o-mini" ⟨"https://u", "t", "x"⟩
     "summary",
   C3_amended_zero_response_always_fails.2 "llama3.2" ⟨"https://u", "t", "x"⟩ ⟨none⟩ rfl
     "summary"⟩

/-- The last element of a list with one element appended. -/
theorem getLast_of_append_singleton {α : Type} (l : List α) (a : α) :
    (l ++ [a]).getLast? = some a := by
  rw [List.getLast?_append_cons]
  rfl

/-- Claim C1: for every environment (hence every url, provider kind, model
identifier) and every sink, the decorated orchestrator call is total — its
type has no error channel, so no exception reaches the caller — its first
log entry is the attempt message, and whenever the wrapped body raised any
exception `e` (from URL validation, page loading, provider construction,
summarization or sink delivery), the last log entry is the uniform
"Failed to generate & display summary" error envelope carrying `str(e)`. -/
theorem C1_run_never_propagates :
    ∀ (env : PyEnv) (fs : FS) (strategy : Option Strategy) (url model_type model_name : String),
      (display_summary env fs strategy url model_type model_name).logs.head?
          = some ⟨LogLevel.info, "Attempting to display summary of website"⟩
      ∧ (∀ e : PyErr,
          (display_summary_core env fs strategy url model_type model_name).2 = .error e →
          (display_summary env fs strategy url model_type model_name).logs.getLast?
            = some ⟨LogLevel.error, "Failed to generate & display summary --> " ++ e.str⟩) := by
  intro env fs strategy url model_type model_name
  cases hc : display_summary_core env fs strategy url model_type model_name with
  | mk st out =>
    cases out with
    | ok u =>
      refine ⟨?_, fun e he => ?_⟩
      · simp [display_summary, hc]
      · exact Except.noConfusion he
    | error e0 =>
      refine ⟨?_, fun e he => ?_⟩
      · simp [display_summary, hc]
      · have : e0 = e := Except.error.inj he
        subst this
        simp only [display_summary, hc]
        exact getLast_of_append_singleton _ _

/-- Claim C1 witness: a run whose URL validation comes back falsy (the rest
of the environment arbitrary but concrete) logs the attempt first and the
failure envelope for the `ValueError("Invalid URL format")` last. -/
theorem C1_run_never_propagates_witness :
    (display_summary
        ⟨ValidatorResult.ok false, FetchResult.page none "", none, .error "down", .error "down",
         none, none, none, none⟩
        (fun _ => none) none "notaurl" "ollama" "llama3.2").logs.head?
        = some ⟨LogLevel.info, "Attempting to display summary of website"⟩
    ∧ (display_summary
        ⟨ValidatorResult.ok false, FetchResult.page none "", none, .error "down", .error "down",
         none, none, none, none⟩
        (fun _ => none) none "notaurl" "ollama" "llama3.2").logs.getLast?
        = some ⟨LogLevel.error,
            "Failed to generate & display summary --> " ++ PyErr.str (.valueError "Invalid URL format")⟩ :=
  ⟨(C1_run_never_propagates
      ⟨ValidatorResult.ok false, FetchResult.page none "", none, .error "down", .error "down",
       none, none, none, none⟩
      (fun _ => none) none "notaurl" "ollama" "llama3.2").1,
   (C1_run_never_propagates
      ⟨ValidatorResult.ok false, FetchResult.page none "", none, .error "down", .error "down",
       none, none, none, none⟩
      (fun _ => none) none "notaurl" "ollama" "llama3.2").2
     (.valueError "Invalid URL format") rfl⟩

/-- Claim C2: in every run, if the body finished normally then the summary
produced by the pipeline was passed to the sink exactly once; and whenever
any summary-producing stage (URL validation, page load, provider
construction, summarization) failed, no sink's `handle_result` was ever
invoked. -/
theorem C2_delivery_exactly_once_or_never :
    ∀ (env : PyEnv) (fs : FS) (strategy : Option Strategy) (url model_type model_name : String),
      ((display_summary_core env fs strategy url model_type model_name).2 = .ok () →
        ∃ s, (run_pipeline env url model_type model_name).2 = .ok s
          ∧ (display_summary_core env fs strategy url model_type model_name).1.delivered = [s])
      ∧ (∀ e : PyErr, (run_pipeline env url model_type model_name).2 = .error e →
          (display_summary_core env fs strategy url model_type model_name).1.delivered = []) := by
  intro env fs strategy url model_type model_name
  cases hp : run_pipeline env url model_type model_name with
  | mk lg r =>
    cases r with
    | error e0 =>
      refine ⟨fun hok => ?_, fun e he => ?_⟩
      · simp [display_summary_core, hp] at hok
      · simp [display_summary_core, hp]
    | ok s =>
      refine ⟨fun hok => ⟨s, by simp, ?_⟩, fun e he => ?_⟩
      · simp [display_summary_core, hp]
      · exact Except.noConfusion he

/-- Claim C2 witness: a run whose validator raises (so the pipeline fails
with the propagated `NameError`) invokes no sink: the delivered list is
empty. -/
theorem C2_delivery_witness :
    (display_summary_core
        ⟨ValidatorResult.exc "boom", FetchResult.page none "", none, .error "down", .error "down",
         none, none, none, none⟩
        (fun _ => none) (some Strategy.printToConsole) "https://x" "ollama"
        "llama3.2").1.delivered = [] :=
  (C2_delivery_exactly_once_or_never
      ⟨ValidatorResult.exc "boom", FetchResult.page none "", none, .error "down", .error "down",
       none, none, none, none⟩
      (fun _ => none) (some Strategy.printToConsole) "https://x" "ollama" "llama3.2").2
    (.nameError "name \x27e\x27 is not defined") rfl
